import Mathlib

/-!  Shallow embedding of `app/services/reverse/assets_download.py`: the tiered-fallback
asset download cascade (`AssetsDownloadReverse`).  Python strings are modelled as lists
of characters, byte strings as lists of byte values, dictionaries as association lists
with unique keys (Python dict assignment updates a binding in place or appends), and the
network / external collaborators as explicit function-valued parameters.  Exceptions are
modelled with `Except`. -/

namespace AssetsDownload

/-- Python `str` values. -/
abbrev Str := List Char

/-- Python `bytes` values. -/
abbrev Bytes := List Nat

/-- Characters stripped by Python's default `str.strip()` (the ASCII whitespace that can
realistically occur in proxy-url configuration values). -/
def isPySpace (c : Char) : Bool :=
  c == ' ' || c == '\t' || c == '\n' || c == '\r' || c == '\x0b' || c == '\x0c'

/-- Python `str.strip()`. -/
def pyStrip (s : Str) : Str :=
  ((s.dropWhile isPySpace).reverse.dropWhile isPySpace).reverse

/-- Python `str.lower()` (the module only lowercases ASCII header names and extensions). -/
def pyLower (s : Str) : Str := s.map Char.toLower

/-- Coalesce an absent configuration value: `get_config(...) or ""`. -/
def orEmpty (o : Option Str) : Str := o.getD []

/-- Python truthiness of an optional string: `None` and `""` are falsy. -/
def truthyStr : Option Str → Bool
  | none => false
  | some s => !s.isEmpty

/-- The `proxies` mapping `{"http": proxy_url, "https": proxy_url}` (line 89). -/
structure ProxyDict where
  http : Str
  https : Str
deriving DecidableEq

/-- The configuration keys read by `request` via `get_config` (external collaborator,
read-only lookups; absent keys yield `None`). -/
structure Config where
  base_proxy_url : Option Str
  asset_proxy_url : Option Str
  download_timeout : Option Nat
  browser : Option Str
deriving DecidableEq

/-- Lines 86-89: strip both configured proxy urls, let the asset-specific one win over
the base one (`asset_proxy or base_proxy`), and build the proxies mapping only when the
result is non-empty (truthy). -/
def mkProxies (cfg : Config) : Option ProxyDict :=
  let base_proxy := pyStrip (orEmpty cfg.base_proxy_url)
  let asset_proxy := pyStrip (orEmpty cfg.asset_proxy_url)
  let proxy_url := if asset_proxy = [] then base_proxy else asset_proxy
  if proxy_url = [] then none else some ⟨proxy_url, proxy_url⟩

/-- Module constant `_CONTENT_TYPES` (lines 22-29). -/
def CONTENT_TYPES : List (Str × Str) :=
  [((".jpg").toList, ("image/jpeg").toList),
   ((".jpeg").toList, ("image/jpeg").toList),
   ((".png").toList, ("image/png").toList),
   ((".webp").toList, ("image/webp").toList),
   ((".mp4").toList, ("video/mp4").toList),
   ((".webm").toList, ("video/webm").toList)]

/-- Python `dict.get`: the binding for the key, if any (keys are unique in a dict). -/
def dictGet (d : List (Str × Str)) (k : Str) : Option Str :=
  match d with
  | [] => none
  | (k0, v0) :: rest => if k = k0 then some v0 else dictGet rest k

/-- Portion of a string before the first occurrence of the character. -/
def beforeChar (c : Char) (s : Str) : Str := s.takeWhile (fun a => a != c)

/-- Characters allowed in a url scheme by `urllib.parse` (letters, digits, `+-.`). -/
def isSchemeChar (c : Char) : Bool := c.isAlphanum || c == '+' || c == '-' || c == '.'

/-- Scheme removal done by `urllib.parse.urlsplit`: a leading `<scheme>:` is dropped when
the part before the first colon is non-empty, starts with a letter and consists of scheme
characters only. -/
def stripScheme (s : Str) : Str :=
  let pre := beforeChar ':' s
  if pre.length < s.length && !pre.isEmpty && pre.all isSchemeChar && (pre.headD ' ').isAlpha
  then s.drop (pre.length + 1) else s

/-- Split a string into the part up to and including the last `/` and the final segment. -/
def splitLastSlash (u : Str) : Str × Str :=
  let seg := (u.reverse.takeWhile (fun a => a != '/')).reverse
  (u.take (u.length - seg.length), seg)

/-- Parameter removal done by `urllib.parse.urlparse` (`_splitparams`): when a `;` occurs
in the last path segment, the path stops at that `;`. -/
def stripParams (u : Str) : Str :=
  if u.contains ';' then
    if u.contains '/' then
      let ps := splitLastSlash u
      if ps.2.contains ';' then ps.1 ++ beforeChar ';' ps.2 else u
    else beforeChar ';' u
  else u

/-- `urllib.parse.urlparse(s).path` (line 92): drop the scheme, the fragment (after the
first `#`), the query (after the first `?`), the netloc (when the remainder starts with
`//`, up to the next `/`), and trailing parameters in the last segment. -/
def urlparsePath (s : Str) : Str :=
  let s0 := stripScheme s
  let noFrag := beforeChar '#' s0
  let noQuery := beforeChar '?' noFrag
  let noNetloc :=
    match noQuery with
    | '/' :: '/' :: rest => rest.dropWhile (fun a => a != '/')
    | other => other
  stripParams noNetloc

/-- `pathlib.PurePosixPath(p).name`: the last path component after discarding empty and
`"."` components. -/
def pathName (p : Str) : Str :=
  ((p.splitOn '/').filter (fun c => !c.isEmpty && c != ['.'])).getLastD []

/-- `pathlib.PurePosixPath(p).suffix`: the extension of the final component, i.e. the
part of the name from its last dot on, empty when the last dot is absent, leading, or
trailing (`0 < i < len(name) - 1`). -/
def pathSuffix (p : Str) : Str :=
  let name := pathName p
  let afterDot := name.reverse.takeWhile (fun a => a != '.')
  if afterDot.length = name.length then []
  else
    let i := name.length - 1 - afterDot.length
    if 0 < i ∧ i < name.length - 1 then '.' :: afterDot.reverse else []

/-- Line 92: `_CONTENT_TYPES.get(Path(urllib.parse.urlparse(file_path).path).suffix.lower())`. -/
def contentTypeHint (file_path : Str) : Option Str :=
  dictGet CONTENT_TYPES (pyLower (pathSuffix (urlparsePath file_path)))

/-- Header mappings: association lists standing for Python dicts (unique keys). -/
abbrev Headers := List (Str × Str)

/-- Python dict assignment `d[k] = v`: update the existing binding in place, else append
the new binding at the end. -/
def setItem (d : Headers) (k v : Str) : Headers :=
  match d with
  | [] => [(k, v)]
  | (k0, v0) :: rest => if k0 = k then (k, v) :: rest else (k0, v0) :: setItem rest k v

/-- Python `dict(items)`: successive assignment into an empty dict, so insertion order is
the order of first occurrence and the value of the last occurrence wins. -/
def pyDict (items : List (Str × Str)) : Headers :=
  items.foldl (fun acc kv => setItem acc kv.1 kv.2) []

/-- Lines 54-57 of `_urllib_get`: re-key the response headers by their lowercased names,
assigning in iteration order (so for case-colliding keys the last assignment wins). -/
def lowerHeaders (d : List (Str × Str)) : Headers :=
  d.foldl (fun acc kv => setItem acc (pyLower kv.1) kv.2) []

/-- Value of the last binding whose transformed key equals `k` (later bindings win);
used to state the "last value wins" property of assignment folds. -/
def lastValueBy (f : Str → Str) (items : List (Str × Str)) (k : Str) : Option Str :=
  match items with
  | [] => none
  | kv :: rest =>
    match lastValueBy f rest k with
    | some v => some v
    | none => if f kv.1 = k then some kv.2 else none

/-- The external collaborator `build_headers(cookie_token, content_type, origin, referer)`
(out of scope per the spec; consumed as a pure function returning a header dict). -/
abbrev BuildHeaders := Str → Option Str → Str → Str → Headers

/-- Lines 95-107: build the outgoing headers via the collaborator, then override the
browser-navigation subset in place. -/
def finalHeaders (bh : BuildHeaders) (token : Str) (ct : Option Str) : Headers :=
  let h0 := bh token ct ("https://assets.grok.com").toList ("https://grok.com/").toList
  let h1 := setItem h0 ("Cache-Control").toList ("no-cache").toList
  let h2 := setItem h1 ("Pragma").toList ("no-cache").toList
  let h3 := setItem h2 ("Priority").toList ("u=0, i").toList
  let h4 := setItem h3 ("Sec-Fetch-Mode").toList ("navigate").toList
  let h5 := setItem h4 ("Sec-Fetch-User").toList ("?1").toList
  setItem h5 ("Upgrade-Insecure-Requests").toList ("1").toList

/-- A `curl_cffi` response as consumed by `_single_get`: status plus the payload (header
mapping and content handle) that is passed through unchanged on success. -/
structure Resp where
  status_code : Int
  headers : Headers
  content : Bytes
deriving DecidableEq

/-- The `details` mapping attached to an `UpstreamException` by this module: a `status`
entry and, on the 502 wrapping path, an `error` entry. -/
structure ErrDetails where
  status : Option Int
  error : Option Str
deriving DecidableEq

/-- Exceptions observable in this module: `UpstreamException(message, details)` (repo
code outside `src/`; modelled from the spec as a classified error carrying a message and
a detail mapping) and any other exception, carried as its string rendering. -/
inductive PyError where
  | upstream (message : Str) (details : ErrDetails)
  | generic (msg : Str)
deriving DecidableEq

/-- `str(e)` of an exception: its message (for `UpstreamException`, modelled from the
spec's description of the error as message-carrying). -/
def exnStr : PyError → Str
  | .upstream m _ => m
  | .generic m => m

/-- Shared head of the module's failure messages: `"AssetsDownloadReverse: Download failed, "`. -/
def MSG_HEAD : Str := ("AssetsDownloadReverse: Download failed, ").toList

/-- Rendering of an integer status into a message. -/
def intStr (s : Int) : Str := (toString s).toList

/-- Message of the non-200 `UpstreamException` (lines 125-133, 157-166). -/
def failMsg (s : Int) : Str := MSG_HEAD ++ intStr s

/-- Message of the 502 wrapping `UpstreamException` (lines 188-195). -/
def wrapMsg (m : Str) : Str := MSG_HEAD ++ m

/-- Head of the first escalation warning (lines 141-144). -/
def WARN1_HEAD : Str :=
  ("AssetsDownloadReverse primary request failed, fallback direct: error=").toList

/-- Head of the second escalation warning (lines 148-151). -/
def WARN2_HEAD : Str :=
  ("AssetsDownloadReverse direct curl request failed, fallback urllib: error=").toList

/-- Logging levels used by the module. -/
inductive LogLevel where
  | warning
  | error
deriving DecidableEq

/-- An emitted log line. -/
structure LogEntry where
  level : LogLevel
  msg : Str
deriving DecidableEq

/-- The keyword arguments `_single_get` passes to `session.get` (lines 113-123): the
`proxies` entry is present only when proxying is requested and configured, the
`impersonate` entry only when impersonation is requested and a browser profile is truthy. -/
structure CurlKwargs where
  headers : Headers
  timeout : Option Nat
  allow_redirects : Bool
  stream : Bool
  proxies : Option ProxyDict
  impersonate : Option Str
deriving DecidableEq

/-- Construction of the `session.get` keyword arguments for one tier. -/
def mkKwargs (headers : Headers) (timeout : Option Nat) (proxies : Option ProxyDict)
    (browser : Option Str) (use_impersonate : Bool) (use_proxy : Bool) : CurlKwargs :=
  { headers := headers
    timeout := timeout
    allow_redirects := true
    stream := true
    proxies := if use_proxy && proxies.isSome then proxies else none
    impersonate := if use_impersonate && truthyStr browser then browser else none }

/-- Tier 1 kwargs: `_single_get(use_impersonate=True, use_proxy=True)`. -/
def kwTier1 (headers : Headers) (timeout : Option Nat) (proxies : Option ProxyDict)
    (browser : Option Str) : CurlKwargs :=
  mkKwargs headers timeout proxies browser true true

/-- Tier 2 kwargs: `_single_get(use_impersonate=False, use_proxy=False)`. -/
def kwTier2 (headers : Headers) (timeout : Option Nat) (proxies : Option ProxyDict)
    (browser : Option Str) : CurlKwargs :=
  mkKwargs headers timeout proxies browser false false

/-- Outcome of one `session.get` call: a transport-level exception or a response. -/
inductive TierOutcome where
  | exn (msg : Str)
  | resp (r : Resp)
deriving DecidableEq

/-- The raw object returned by `urllib.request.urlopen`: an optional `status` attribute
(`none` models both a missing attribute and `None`), header items (duplicates possible),
and the fully read body. -/
structure RawResp where
  status : Option Int
  headers : List (Str × Str)
  body : Bytes
deriving DecidableEq

/-- The environment of external effects: the curl transport (a function of the url and
keyword arguments), the urllib fallback transport (a function of url, headers, timeout;
it may raise), and whether `TokenService.record_fail` raises when invoked. -/
structure Net where
  curl : Str → CurlKwargs → TierOutcome
  urllib : Str → Headers → Option Nat → Except Str RawResp
  recordFailRaises : Bool

/-- Lines 124-134 of `_single_get`: return the response unchanged when its status is
`200`; raise `UpstreamException` with `details={"status": response.status_code}` otherwise. -/
def single_get (o : TierOutcome) : Except PyError Resp :=
  match o with
  | .exn m => .error (.generic m)
  | .resp r =>
    if r.status_code ≠ 200 then
      .error (.upstream (failMsg r.status_code) ⟨some r.status_code, none⟩)
    else .ok r

/-- The error log emitted by `_single_get` (lines 125-128): one error line before the
non-200 raise, nothing otherwise. -/
def single_get_logs (o : TierOutcome) : List LogEntry :=
  match o with
  | .exn _ => []
  | .resp r => if r.status_code ≠ 200 then [⟨.error, failMsg r.status_code⟩] else []

/-- Line 53: `int(getattr(resp, "status", 200) or 200)` - a missing or falsy status
attribute (`None`, `0`) yields `200`. -/
def effStatus (raw : RawResp) : Int :=
  match raw.status with
  | none => 200
  | some s => if s = 0 then 200 else s

/-- The normalized response produced by `_SimpleResponse`. -/
structure SimpleResponse where
  status_code : Int
  headers : Headers
  content : Bytes
deriving DecidableEq

/-- Lines 46-66 `_urllib_get`: adapt the raw urllib response - defaulted status,
lowercased header keys of `dict(resp.headers.items())` (assignment order, last wins),
fully buffered body. -/
def urllib_get (raw : RawResp) : SimpleResponse :=
  { status_code := effStatus raw
    headers := lowerHeaders (pyDict raw.headers)
    content := raw.body }

/-- Lines 41-44 `_SimpleResponse.aiter_content`: slice the buffered content into
`chunk_size`-sized pieces (`data[i:i+chunk_size]` for `i in range(0, len(data),
chunk_size)`); Python's `range` rejects a zero step, which never happens (the default
chunk size is `64 * 1024`). -/
def aiter_content (data : Bytes) (chunk_size : Nat) : List Bytes :=
  if chunk_size = 0 then []
  else if data = [] then []
  else data.take chunk_size :: aiter_content (data.drop chunk_size) chunk_size
termination_by data.length
decreasing_by
  have hlen : data.length ≠ 0 := by
    intro h0
    exact absurd (List.length_eq_zero.mp h0) (by assumption)
  simp only [List.length_drop]
  omega

/-- The value returned to the caller: a curl response (tiers 1-2) or the fallback
`_SimpleResponse` (tier 3). -/
inductive DownloadResult where
  | curl (r : Resp)
  | fallback (r : SimpleResponse)
deriving DecidableEq

/-- One transport invocation, as observed by the environment. -/
inductive Attempt where
  | curl (url : Str) (kwargs : CurlKwargs)
  | urllib (url : Str) (headers : Headers) (timeout : Option Nat)
deriving DecidableEq

deriving instance DecidableEq for Except

/-- Result of the cascade together with its observable side effects. -/
structure CascadeOut where
  result : Except PyError DownloadResult
  attempts : List Attempt
  logs : List LogEntry
deriving DecidableEq

/-- Lines 136-167 `_do_request`: try tier 1 (impersonation and proxy enabled); on any
exception escalate with a warning to tier 2 (both disabled); on any exception escalate
with a warning to the urllib fallback, whose non-200 status is terminal
(`UpstreamException` with `details={"status": status}`). -/
def do_request (net : Net) (url : Str) (headers : Headers) (timeout : Option Nat)
    (proxies : Option ProxyDict) (browser : Option Str) : CascadeOut :=
  let kw1 := kwTier1 headers timeout proxies browser
  let o1 := net.curl url kw1
  match single_get o1 with
  | .ok r => ⟨.ok (.curl r), [.curl url kw1], single_get_logs o1⟩
  | .error e1 =>
    let kw2 := kwTier2 headers timeout proxies browser
    let o2 := net.curl url kw2
    let logs1 := single_get_logs o1 ++ [⟨.warning, WARN1_HEAD ++ exnStr e1⟩]
    match single_get o2 with
    | .ok r => ⟨.ok (.curl r), [.curl url kw1, .curl url kw2], logs1 ++ single_get_logs o2⟩
    | .error e2 =>
      let logs2 := logs1 ++ single_get_logs o2 ++ [⟨.warning, WARN2_HEAD ++ exnStr e2⟩]
      let atts := [Attempt.curl url kw1, Attempt.curl url kw2,
        Attempt.urllib url headers timeout]
      match net.urllib url headers timeout with
      | .error m => ⟨.error (.generic m), atts, logs2⟩
      | .ok raw =>
        let fr := urllib_get raw
        if fr.status_code ≠ 200 then
          ⟨.error (.upstream (failMsg fr.status_code) ⟨some fr.status_code, none⟩),
            atts, logs2 ++ [⟨.error, failMsg fr.status_code⟩]⟩
        else ⟨.ok (.fallback fr), atts, logs2⟩

/-- Module constant `DOWNLOAD_API` (line 20). -/
def DOWNLOAD_API : Str := ("https://assets.grok.com").toList

/-- Lines 80-83: prefix a leading `/` when the path does not start with one. -/
def normalizePath (p : Str) : Str :=
  if p.head? = some '/' then p else '/' :: p

/-- One invocation of `TokenService.record_fail(token, status, reason)` (external
credential-health collaborator). -/
structure RecordFailCall where
  token : Str
  status : Option Int
  reason : Str
deriving DecidableEq

/-- Result of `request` together with its observable side effects. -/
structure RequestOut where
  result : Except PyError DownloadResult
  attempts : List Attempt
  logs : List LogEntry
  recordFails : List RecordFailCall
deriving DecidableEq

/-- Modelled from the spec: `retry_on_status` lives in
`app.services.reverse.utils.retry`, which is not under `src/`.  Per the spec it wraps
the whole cascade, restarts it on retryable terminal statuses within an attempt budget,
and otherwise "propagate[s] the terminal failure unchanged".  The embedded cascade is a
deterministic function of its environment, so every restart returns the same outcome and
the wrapper is extensionally the identity on the cascade's result. -/
def retry_on_status (r : Except PyError DownloadResult) : Except PyError DownloadResult := r

/-- The cascade as invoked by `request` on the (already normalized) path: url built from
`DOWNLOAD_API`, headers from the collaborator plus overrides, timeout, proxies and
browser profile from configuration. -/
def inner (bh : BuildHeaders) (cfg : Config) (net : Net) (token : Str) (fp : Str) :
    CascadeOut :=
  do_request net (DOWNLOAD_API ++ fp) (finalHeaders bh token (contentTypeHint fp))
    cfg.download_timeout (mkProxies cfg) cfg.browser

/-- The fixed reason tag passed to `record_fail` (line 180). -/
def REASON_TAG : Str := ("assets_download_auth_failed").toList

/-- Lines 69-195, on the normalized path: run the retried cascade; pass a success
through; on `UpstreamException` read `details["status"]` (always present on the
exceptions this module raises; the `getattr(e, "status_code", None)` fallback covers
upstream errors without that detail), invoke `record_fail` exactly when it is `401`
with its outcome discarded by the bare `except`, and re-raise the original exception;
wrap any other exception into a 502 `UpstreamException` after an error log. -/
def requestCore (bh : BuildHeaders) (cfg : Config) (net : Net) (token : Str) (fp : Str) :
    RequestOut :=
  let c := inner bh cfg net token fp
  match retry_on_status c.result with
  | .ok v => ⟨.ok v, c.attempts, c.logs, []⟩
  | .error e =>
    match e with
    | .upstream m d =>
      let status := d.status
      let rf := if status = some 401 then [RecordFailCall.mk token status REASON_TAG]
        else []
      let _rfOutcome : Except Str Unit :=
        if net.recordFailRaises then .error ("record_fail raised").toList else .ok ()
      ⟨.error (.upstream m d), c.attempts, c.logs, rf⟩
    | .generic m =>
      ⟨.error (.upstream (wrapMsg m) ⟨some 502, some m⟩), c.attempts,
        c.logs ++ [⟨.error, wrapMsg m⟩], []⟩

/-- `AssetsDownloadReverse.request(session, token, file_path)`: normalize the path, then
run the request on it. -/
def request (bh : BuildHeaders) (cfg : Config) (net : Net) (token : Str)
    (file_path : Str) : RequestOut :=
  requestCore bh cfg net token (normalizePath file_path)

/-- Modelled from the spec: the external transports apply their own default timeout when
the configured `asset.download_timeout` is absent ("Absent/empty values must degrade
gracefully (no proxy, no impersonation, default timeout)").  The module passes the absent
value straight through; the default is whatever the transport library uses. -/
def effectiveTimeout (t : Option Nat) (libDefault : Nat) : Nat := t.getD libDefault

/-- Example header collaborator: returns an empty header dict. -/
def bh0 : BuildHeaders := fun _ _ _ _ => []

/-- Example configuration with every key absent. -/
def cfg0 : Config := ⟨none, none, none, none⟩

/-- Example environment in which every transport reports status 401. -/
def net401 : Net :=
  ⟨fun _ _ => .resp ⟨401, [], []⟩, fun _ _ _ => .ok ⟨some 401, [], []⟩, false⟩

/-- Example environment in which the first transport call already succeeds. -/
def netOk : Net :=
  ⟨fun _ _ => .resp ⟨200, [(("x").toList, ("y").toList)], [7]⟩,
   fun _ _ _ => .error ("unused").toList, false⟩

/-- Example environment in which the curl tiers raise and the urllib fallback raises too. -/
def netExn : Net :=
  ⟨fun _ _ => .exn ("boom").toList, fun _ _ _ => .error ("urllib down").toList, false⟩

/-- Example environment in which the curl tiers fail with 403 and the urllib fallback
returns a response without a status attribute and with case-colliding header keys. -/
def netFalsy : Net :=
  ⟨fun _ _ => .resp ⟨403, [], []⟩,
   fun _ _ _ =>
     .ok ⟨none, [(("A").toList, ("1").toList), (("a").toList, ("2").toList)], [9]⟩,
   false⟩

/-- The raw urllib response produced by `netFalsy`. -/
def rawEx : RawResp :=
  ⟨none, [(("A").toList, ("1").toList), (("a").toList, ("2").toList)], [9]⟩

/-- Example configuration with both proxy urls configured (the base one padded with
whitespace). -/
def cfgBoth : Config := ⟨some (" base ").toList, some ("asset").toList, none, none⟩

theorem aiter_content_nil (C : Nat) : aiter_content [] C = [] := by
  unfold aiter_content
  simp

theorem aiter_content_cons (data : Bytes) (C : Nat) (hC : C ≠ 0) (hd : data ≠ []) :
    aiter_content data C = data.take C :: aiter_content (data.drop C) C := by
  conv_lhs => unfold aiter_content
  simp [hC, hd]

theorem aiter_content_ne_nil (C : Nat) (hC : C ≠ 0) (d : Bytes)
    (h : aiter_content d C = []) : d = [] := by
  by_contra hd
  rw [aiter_content_cons d C hC hd] at h
  exact absurd h (List.cons_ne_nil _ _)

theorem aiter_join (C : Nat) (hC : 0 < C) (data : Bytes) :
    (aiter_content data C).flatten = data := by
  suffices h : ∀ n (d : Bytes), d.length = n → (aiter_content d C).flatten = d from
    h data.length data rfl
  intro n
  induction n using Nat.strong_induction_on with
  | _ n ih =>
    intro d hlen
    by_cases hd : d = []
    · subst hd
      simp [aiter_content_nil]
    · rw [aiter_content_cons d C (by omega) hd, List.flatten_cons]
      have hdne : d.length ≠ 0 := fun h0 => hd (List.length_eq_zero.mp h0)
      have hlt : (d.drop C).length < n := by
        subst hlen
        simp only [List.length_drop]
        omega
      rw [ih _ hlt _ rfl, List.take_append_drop]

theorem aiter_length (C : Nat) (hC : 0 < C) (data : Bytes) :
    (aiter_content data C).length = (data.length + C - 1) / C := by
  suffices h : ∀ n (d : Bytes), d.length = n →
      (aiter_content d C).length = (d.length + C - 1) / C from h data.length data rfl
  intro n
  induction n using Nat.strong_induction_on with
  | _ n ih =>
    intro d hlen
    by_cases hd : d = []
    · subst hd
      simp [aiter_content_nil]
      rw [Nat.div_eq_of_lt (by omega)]
    · rw [aiter_content_cons d C (by omega) hd, List.length_cons]
      have hdne : d.length ≠ 0 := fun h0 => hd (List.length_eq_zero.mp h0)
      have hlt : (d.drop C).length < n := by
        subst hlen
        simp only [List.length_drop]
        omega
      rw [ih _ hlt _ rfl]
      simp only [List.length_drop]
      rcases Nat.lt_or_ge C d.length with hcase | hcase
      · have he : d.length + C - 1 = (d.length - C + C - 1) + C := by omega
        rw [he, Nat.add_div_right _ hC]
      · have h2 : d.length - C = 0 := by omega
        have he : d.length + C - 1 = (d.length - 1) + C := by omega
        rw [h2, he, Nat.add_div_right _ hC, Nat.div_eq_of_lt (by omega),
          Nat.div_eq_of_lt (by omega)]

theorem aiter_mem_length (C : Nat) (hC : 0 < C) (data : Bytes) :
    ∀ c ∈ aiter_content data C, 0 < c.length ∧ c.length ≤ C := by
  suffices h : ∀ n (d : Bytes), d.length = n →
      ∀ c ∈ aiter_content d C, 0 < c.length ∧ c.length ≤ C from h data.length data rfl
  intro n
  induction n using Nat.strong_induction_on with
  | _ n ih =>
    intro d hlen c hc
    by_cases hd : d = []
    · subst hd
      rw [aiter_content_nil] at hc
      exact absurd hc (List.not_mem_nil c)
    · rw [aiter_content_cons d C (by omega) hd] at hc
      have hdne : d.length ≠ 0 := fun h0 => hd (List.length_eq_zero.mp h0)
      rcases List.mem_cons.mp hc with h1 | h1
      · subst h1
        simp only [List.length_take]
        omega
      · have hlt : (d.drop C).length < n := by
          subst hlen
          simp only [List.length_drop]
          omega
        exact ih _ hlt _ rfl c h1

theorem aiter_dropLast (C : Nat) (hC : 0 < C) (data : Bytes) :
    ∀ c ∈ (aiter_content data C).dropLast, c.length = C := by
  suffices h : ∀ n (d : Bytes), d.length = n →
      ∀ c ∈ (aiter_content d C).dropLast, c.length = C from h data.length data rfl
  intro n
  induction n using Nat.strong_induction_on with
  | _ n ih =>
    intro d hlen c hc
    by_cases hd : d = []
    · subst hd
      rw [aiter_content_nil] at hc
      exact absurd hc (List.not_mem_nil c)
    · rw [aiter_content_cons d C (by omega) hd] at hc
      have hdne : d.length ≠ 0 := fun h0 => hd (List.length_eq_zero.mp h0)
      by_cases htail : aiter_content (d.drop C) C = []
      · rw [htail] at hc
        exact absurd hc (List.not_mem_nil c)
      · rcases List.exists_cons_of_ne_nil htail with ⟨a, l, hal⟩
        rw [hal, List.dropLast_cons₂] at hc
        rcases List.mem_cons.mp hc with h1 | h1
        · subst h1
          have hdrop : d.drop C ≠ [] := by
            intro h0
            rw [h0, aiter_content_nil] at hal
            exact absurd hal.symm (List.cons_ne_nil _ _)
          have hClt : C < d.length := by
            by_contra hle
            exact hdrop (List.drop_eq_nil_of_le (by omega))
          simp only [List.length_take]
          omega
        · have hlt : (d.drop C).length < n := by
            subst hlen
            simp only [List.length_drop]
            omega
          have := ih _ hlt _ rfl c
          rw [hal] at this
          exact this h1

theorem dictGet_setItem (d : Headers) (q v k : Str) :
    dictGet (setItem d q v) k = if k = q then some v else dictGet d k := by
  induction d with
  | nil => simp [setItem, dictGet]
  | cons kv rest ih =>
    rcases kv with ⟨k0, v0⟩
    simp only [setItem]
    by_cases h0 : k0 = q
    · subst h0
      rw [if_pos rfl]
      simp only [dictGet]
      split_ifs <;> simp_all
    · rw [if_neg h0]
      simp only [dictGet, ih]
      split_ifs <;> simp_all

theorem keys_setItem (d : Headers) (q v : Str) :
    ∀ k ∈ (setItem d q v).map Prod.fst, k = q ∨ k ∈ d.map Prod.fst := by
  induction d with
  | nil => simp [setItem]
  | cons kv rest ih =>
    rcases kv with ⟨k0, v0⟩
    simp only [setItem]
    by_cases h0 : k0 = q
    · subst h0
      rw [if_pos rfl]
      intro k hk
      simp only [List.map_cons, List.mem_cons] at hk
      simp only [List.map_cons, List.mem_cons]
      tauto
    · rw [if_neg h0]
      intro k hk
      simp only [List.map_cons, List.mem_cons] at hk
      simp only [List.map_cons, List.mem_cons]
      rcases hk with h1 | h1
      · tauto
      · rcases ih k h1 with h2 | h2 <;> tauto

theorem nodup_setItem (d : Headers) (q v : Str)
    (h : (d.map Prod.fst).Nodup) : ((setItem d q v).map Prod.fst).Nodup := by
  induction d with
  | nil => simp [setItem]
  | cons kv rest ih =>
    rcases kv with ⟨k0, v0⟩
    simp only [List.map_cons, List.nodup_cons] at h
    simp only [setItem]
    by_cases h0 : k0 = q
    · subst h0
      rw [if_pos rfl]
      simp only [List.map_cons, List.nodup_cons]
      exact ⟨h.1, h.2⟩
    · rw [if_neg h0]
      simp only [List.map_cons, List.nodup_cons]
      refine ⟨fun hmem => ?_, ih h.2⟩
      rcases keys_setItem rest q v k0 hmem with h1 | h1
      · exact h0 h1
      · exact h.1 h1

theorem dictGet_fold_setItem (f : Str → Str) (items : List (Str × Str)) (acc : Headers)
    (k : Str) :
    dictGet (items.foldl (fun a kv => setItem a (f kv.1) kv.2) acc) k =
      match lastValueBy f items k with
      | some v => some v
      | none => dictGet acc k := by
  induction items generalizing acc with
  | nil => simp [lastValueBy]
  | cons kv rest ih =>
    simp only [List.foldl_cons]
    rw [ih]
    rcases h : lastValueBy f rest k with _ | v
    · simp only [lastValueBy, h, dictGet_setItem]
      by_cases hk : f kv.1 = k
      · rw [if_pos hk.symm, if_pos hk]
      · rw [if_neg (fun h1 => hk (Eq.symm h1)), if_neg hk]
    · simp [lastValueBy, h]

theorem keys_fold_setItem (f : Str → Str) (items : List (Str × Str)) (acc : Headers) :
    ∀ k ∈ ((items.foldl (fun a kv => setItem a (f kv.1) kv.2) acc).map Prod.fst),
      k ∈ acc.map Prod.fst ∨ ∃ kv ∈ items, k = f kv.1 := by
  induction items generalizing acc with
  | nil => simp
  | cons kv rest ih =>
    intro k hk
    simp only [List.foldl_cons] at hk
    rcases ih (setItem acc (f kv.1) kv.2) k hk with h1 | h1
    · rcases keys_setItem acc (f kv.1) kv.2 k h1 with h2 | h2
      · exact Or.inr ⟨kv, by simp, h2⟩
      · exact Or.inl h2
    · rcases h1 with ⟨kv2, hmem, hkey⟩
      exact Or.inr ⟨kv2, by simp [hmem], hkey⟩

theorem nodup_fold_setItem (f : Str → Str) (items : List (Str × Str)) (acc : Headers)
    (h : (acc.map Prod.fst).Nodup) :
    ((items.foldl (fun a kv => setItem a (f kv.1) kv.2) acc).map Prod.fst).Nodup := by
  induction items generalizing acc with
  | nil => exact h
  | cons kv rest ih =>
    simp only [List.foldl_cons]
    exact ih _ (nodup_setItem acc (f kv.1) kv.2 h)

theorem dictGet_lowerHeaders (d : List (Str × Str)) (k : Str) :
    dictGet (lowerHeaders d) k = lastValueBy pyLower d k := by
  have h := dictGet_fold_setItem pyLower d [] k
  rw [lowerHeaders, h]
  rcases lastValueBy pyLower d k with _ | v <;> simp [dictGet]

theorem dictGet_none_of_no_key (d : List (Str × Str)) (k : Str)
    (h : ∀ kv ∈ d, k ≠ kv.1) : dictGet d k = none := by
  induction d with
  | nil => rfl
  | cons kv rest ih =>
    simp only [dictGet]
    rw [if_neg (h kv (by simp)), ih (fun kv2 hm => h kv2 (by simp [hm]))]

theorem do_request_tier1_ok (net : Net) (url : Str) (headers : Headers)
    (timeout : Option Nat) (proxies : Option ProxyDict) (browser : Option Str) (r : Resp)
    (h1 : single_get (net.curl url (kwTier1 headers timeout proxies browser)) = .ok r) :
    do_request net url headers timeout proxies browser =
      ⟨.ok (.curl r), [.curl url (kwTier1 headers timeout proxies browser)],
        single_get_logs (net.curl url (kwTier1 headers timeout proxies browser))⟩ := by
  simp only [do_request, h1]

theorem do_request_tier2_ok (net : Net) (url : Str) (headers : Headers)
    (timeout : Option Nat) (proxies : Option ProxyDict) (browser : Option Str)
    (e1 : PyError) (r : Resp)
    (h1 : single_get (net.curl url (kwTier1 headers timeout proxies browser)) = .error e1)
    (h2 : single_get (net.curl url (kwTier2 headers timeout proxies browser)) = .ok r) :
    do_request net url headers timeout proxies browser =
      ⟨.ok (.curl r),
        [.curl url (kwTier1 headers timeout proxies browser),
         .curl url (kwTier2 headers timeout proxies browser)],
        (single_get_logs (net.curl url (kwTier1 headers timeout proxies browser)) ++
            [⟨.warning, WARN1_HEAD ++ exnStr e1⟩]) ++
          single_get_logs (net.curl url (kwTier2 headers timeout proxies browser))⟩ := by
  simp only [do_request, h1, h2]

theorem do_request_tier3_exn (net : Net) (url : Str) (headers : Headers)
    (timeout : Option Nat) (proxies : Option ProxyDict) (browser : Option Str)
    (e1 e2 : PyError) (m : Str)
    (h1 : single_get (net.curl url (kwTier1 headers timeout proxies browser)) = .error e1)
    (h2 : single_get (net.curl url (kwTier2 headers timeout proxies browser)) = .error e2)
    (h3 : net.urllib url headers timeout = .error m) :
    do_request net url headers timeout proxies browser =
      ⟨.error (.generic m),
        [.curl url (kwTier1 headers timeout proxies browser),
         .curl url (kwTier2 headers timeout proxies browser),
         .urllib url headers timeout],
        ((single_get_logs (net.curl url (kwTier1 headers timeout proxies browser)) ++
              [⟨.warning, WARN1_HEAD ++ exnStr e1⟩]) ++
            single_get_logs (net.curl url (kwTier2 headers timeout proxies browser))) ++
          [⟨.warning, WARN2_HEAD ++ exnStr e2⟩]⟩ := by
  simp only [do_request, h1, h2, h3]

theorem do_request_tier3_fail (net : Net) (url : Str) (headers : Headers)
    (timeout : Option Nat) (proxies : Option ProxyDict) (browser : Option Str)
    (e1 e2 : PyError) (raw : RawResp)
    (h1 : single_get (net.curl url (kwTier1 headers timeout proxies browser)) = .error e1)
    (h2 : single_get (net.curl url (kwTier2 headers timeout proxies browser)) = .error e2)
    (h3 : net.urllib url headers timeout = .ok raw)
    (hs : (urllib_get raw).status_code ≠ 200) :
    do_request net url headers timeout proxies browser =
      ⟨.error (.upstream (failMsg (urllib_get raw).status_code)
          ⟨some (urllib_get raw).status_code, none⟩),
        [.curl url (kwTier1 headers timeout proxies browser),
         .curl url (kwTier2 headers timeout proxies browser),
         .urllib url headers timeout],
        (((single_get_logs (net.curl url (kwTier1 headers timeout proxies browser)) ++
                [⟨.warning, WARN1_HEAD ++ exnStr e1⟩]) ++
              single_get_logs (net.curl url (kwTier2 headers timeout proxies browser))) ++
            [⟨.warning, WARN2_HEAD ++ exnStr e2⟩]) ++
          [⟨.error, failMsg (urllib_get raw).status_code⟩]⟩ := by
  simp only [do_request, h1, h2, h3]
  rw [if_pos hs]

theorem do_request_tier3_ok (net : Net) (url : Str) (headers : Headers)
    (timeout : Option Nat) (proxies : Option ProxyDict) (browser : Option Str)
    (e1 e2 : PyError) (raw : RawResp)
    (h1 : single_get (net.curl url (kwTier1 headers timeout proxies browser)) = .error e1)
    (h2 : single_get (net.curl url (kwTier2 headers timeout proxies browser)) = .error e2)
    (h3 : net.urllib url headers timeout = .ok raw)
    (hs : (urllib_get raw).status_code = 200) :
    do_request net url headers timeout proxies browser =
      ⟨.ok (.fallback (urllib_get raw)),
        [.curl url (kwTier1 headers timeout proxies browser),
         .curl url (kwTier2 headers timeout proxies browser),
         .urllib url headers timeout],
        ((single_get_logs (net.curl url (kwTier1 headers timeout proxies browser)) ++
              [⟨.warning, WARN1_HEAD ++ exnStr e1⟩]) ++
            single_get_logs (net.curl url (kwTier2 headers timeout proxies browser))) ++
          [⟨.warning, WARN2_HEAD ++ exnStr e2⟩]⟩ := by
  simp only [do_request, h1, h2, h3]
  rw [if_neg (by simp [hs])]

/-- C1: the cascade tries tier 1 first with impersonation and proxy enabled (the
configured proxies and browser profile are passed through); on any failure of tier 1 it
attempts tier 2 with impersonation and proxy both disabled; on any failure of tier 2 it
attempts the minimal urllib client; and a non-200 status from tier 3 is terminal, raising
an `UpstreamException` whose detail mapping carries the observed status. -/
theorem cascade_tier_order_and_terminal_failure (net : Net) (url : Str)
    (headers : Headers) (timeout : Option Nat) (proxies : Option ProxyDict)
    (browser : Option Str) :
    (do_request net url headers timeout proxies browser).attempts.head? =
        some (.curl url (kwTier1 headers timeout proxies browser)) ∧
    (kwTier1 headers timeout proxies browser).proxies = proxies ∧
    (kwTier1 headers timeout proxies browser).impersonate =
        (if truthyStr browser then browser else none) ∧
    (kwTier2 headers timeout proxies browser).proxies = none ∧
    (kwTier2 headers timeout proxies browser).impersonate = none ∧
    (∀ e1 : PyError,
        single_get (net.curl url (kwTier1 headers timeout proxies browser)) = .error e1 →
        ((do_request net url headers timeout proxies browser).attempts.drop 1).head? =
          some (.curl url (kwTier2 headers timeout proxies browser))) ∧
    (∀ e1 e2 : PyError,
        single_get (net.curl url (kwTier1 headers timeout proxies browser)) = .error e1 →
        single_get (net.curl url (kwTier2 headers timeout proxies browser)) = .error e2 →
        (do_request net url headers timeout proxies browser).attempts =
          [.curl url (kwTier1 headers timeout proxies browser),
           .curl url (kwTier2 headers timeout proxies browser),
           .urllib url headers timeout]) ∧
    (∀ (e1 e2 : PyError) (raw : RawResp),
        single_get (net.curl url (kwTier1 headers timeout proxies browser)) = .error e1 →
        single_get (net.curl url (kwTier2 headers timeout proxies browser)) = .error e2 →
        net.urllib url headers timeout = .ok raw →
        (urllib_get raw).status_code ≠ 200 →
        (do_request net url headers timeout proxies browser).result =
          .error (.upstream (failMsg (urllib_get raw).status_code)
            ⟨some (urllib_get raw).status_code, none⟩)) := by
  refine ⟨?_, ?_, ?_, ?_, ?_, ?_, ?_, ?_⟩
  · cases h1 : single_get (net.curl url (kwTier1 headers timeout proxies browser)) with
    | ok r =>
      rw [do_request_tier1_ok net url headers timeout proxies browser r h1]
      rfl
    | error e1 =>
      cases h2 : single_get (net.curl url (kwTier2 headers timeout proxies browser)) with
      | ok r =>
        rw [do_request_tier2_ok net url headers timeout proxies browser e1 r h1 h2]
        rfl
      | error e2 =>
        cases h3 : net.urllib url headers timeout with
        | error m =>
          rw [do_request_tier3_exn net url headers timeout proxies browser e1 e2 m h1 h2 h3]
          rfl
        | ok raw =>
          by_cases hs : (urllib_get raw).status_code = 200
          · rw [do_request_tier3_ok net url headers timeout proxies browser e1 e2 raw
              h1 h2 h3 hs]
            rfl
          · rw [do_request_tier3_fail net url headers timeout proxies browser e1 e2 raw
              h1 h2 h3 hs]
            rfl
  · cases proxies <;> simp [kwTier1, mkKwargs]
  · cases hb : truthyStr browser <;> simp [kwTier1, mkKwargs, hb]
  · simp [kwTier2, mkKwargs]
  · simp [kwTier2, mkKwargs]
  · intro e1 h1
    cases h2 : single_get (net.curl url (kwTier2 headers timeout proxies browser)) with
    | ok r =>
      rw [do_request_tier2_ok net url headers timeout proxies browser e1 r h1 h2]
      rfl
    | error e2 =>
      cases h3 : net.urllib url headers timeout with
      | error m =>
        rw [do_request_tier3_exn net url headers timeout proxies browser e1 e2 m h1 h2 h3]
        rfl
      | ok raw =>
        by_cases hs : (urllib_get raw).status_code = 200
        · rw [do_request_tier3_ok net url headers timeout proxies browser e1 e2 raw
            h1 h2 h3 hs]
          rfl
        · rw [do_request_tier3_fail net url headers timeout proxies browser e1 e2 raw
            h1 h2 h3 hs]
          rfl
  · intro e1 e2 h1 h2
    cases h3 : net.urllib url headers timeout with
    | error m =>
      rw [do_request_tier3_exn net url headers timeout proxies browser e1 e2 m h1 h2 h3]
    | ok raw =>
      by_cases hs : (urllib_get raw).status_code = 200
      · rw [do_request_tier3_ok net url headers timeout proxies browser e1 e2 raw
          h1 h2 h3 hs]
      · rw [do_request_tier3_fail net url headers timeout proxies browser e1 e2 raw
          h1 h2 h3 hs]
  · intro e1 e2 raw h1 h2 h3 hs
    rw [do_request_tier3_fail net url headers timeout proxies browser e1 e2 raw h1 h2 h3 hs]

/-- Witness for `cascade_tier_order_and_terminal_failure`: in an environment where every
tier reports 401, the cascade attempts tier 1 first and terminates with an
`UpstreamException` carrying `{"status": 401}`. -/
theorem cascade_tier_order_witness :
    (do_request net401 ("u").toList [] none none none).result =
      .error (.upstream (failMsg 401) ⟨some 401, none⟩) ∧
    (do_request net401 ("u").toList [] none none none).attempts.head? =
      some (.curl ("u").toList (kwTier1 [] none none none)) := by
  have h := cascade_tier_order_and_terminal_failure net401 (("u").toList) [] none none none
  refine ⟨?_, h.1⟩
  exact h.2.2.2.2.2.2.2 (.upstream (failMsg 401) ⟨some 401, none⟩)
    (.upstream (failMsg 401) ⟨some 401, none⟩) ⟨some 401, [], []⟩
    (by decide) (by decide) rfl (by decide)

/-- C2: success at every tier is exactly status 200 - `_single_get` returns the response
object unchanged iff its status is 200 and raises otherwise; a 200 at tier 1 ends the
cascade after one attempt, a 200 at tier 2 after two, a 200 from the urllib fallback
returns the adapted response; and a successful cascade result is handed to the caller
unchanged by `request`. -/
theorem tier_success_iff_status_200 (net : Net) (url : Str) (headers : Headers)
    (timeout : Option Nat) (proxies : Option ProxyDict) (browser : Option Str) :
    (∀ r : Resp, single_get (.resp r) = .ok r ↔ r.status_code = 200) ∧
    (∀ r : Resp, r.status_code ≠ 200 →
        single_get (.resp r) =
          .error (.upstream (failMsg r.status_code) ⟨some r.status_code, none⟩)) ∧
    (∀ r : Resp, net.curl url (kwTier1 headers timeout proxies browser) = .resp r →
        r.status_code = 200 →
        do_request net url headers timeout proxies browser =
          ⟨.ok (.curl r), [.curl url (kwTier1 headers timeout proxies browser)],
            single_get_logs (net.curl url (kwTier1 headers timeout proxies browser))⟩) ∧
    (∀ (e1 : PyError) (r : Resp),
        single_get (net.curl url (kwTier1 headers timeout proxies browser)) = .error e1 →
        net.curl url (kwTier2 headers timeout proxies browser) = .resp r →
        r.status_code = 200 →
        (do_request net url headers timeout proxies browser).result = .ok (.curl r) ∧
        (do_request net url headers timeout proxies browser).attempts =
          [.curl url (kwTier1 headers timeout proxies browser),
           .curl url (kwTier2 headers timeout proxies browser)]) ∧
    (∀ (e1 e2 : PyError) (raw : RawResp),
        single_get (net.curl url (kwTier1 headers timeout proxies browser)) = .error e1 →
        single_get (net.curl url (kwTier2 headers timeout proxies browser)) = .error e2 →
        net.urllib url headers timeout = .ok raw →
        (urllib_get raw).status_code = 200 →
        (do_request net url headers timeout proxies browser).result =
          .ok (.fallback (urllib_get raw))) ∧
    (∀ (bh : BuildHeaders) (cfg : Config) (token fp : Str) (v : DownloadResult),
        (inner bh cfg net token fp).result = .ok v →
        (requestCore bh cfg net token fp).result = .ok v) := by
  refine ⟨?_, ?_, ?_, ?_, ?_, ?_⟩
  · intro r
    by_cases h : r.status_code = 200 <;> simp [single_get, h]
  · intro r h
    simp [single_get, h]
  · intro r hcurl hs
    have h1 : single_get (net.curl url (kwTier1 headers timeout proxies browser)) = .ok r := by
      rw [hcurl]
      simp [single_get, hs]
    exact do_request_tier1_ok net url headers timeout proxies browser r h1
  · intro e1 r h1 hcurl hs
    have h2 : single_get (net.curl url (kwTier2 headers timeout proxies browser)) = .ok r := by
      rw [hcurl]
      simp [single_get, hs]
    rw [do_request_tier2_ok net url headers timeout proxies browser e1 r h1 h2]
    exact ⟨rfl, rfl⟩
  · intro e1 e2 raw h1 h2 h3 hs
    rw [do_request_tier3_ok net url headers timeout proxies browser e1 e2 raw h1 h2 h3 hs]
  · intro bh cfg token fp v h
    simp only [requestCore, retry_on_status, h]

/-- Witness for `tier_success_iff_status_200`: a 200 at tier 1 is returned unchanged
after a single attempt. -/
theorem tier_success_witness :
    do_request netOk ("u").toList [] none none none =
      ⟨.ok (.curl ⟨200, [(("x").toList, ("y").toList)], [7]⟩),
        [.curl ("u").toList (kwTier1 [] none none none)], []⟩ := by
  exact (tier_success_iff_status_200 netOk (("u").toList) [] none none none).2.2.1
    ⟨200, [(("x").toList, ("y").toList)], [7]⟩ rfl rfl

/-- C4: for a body of `N` bytes and chunk size `C > 0`, the chunk producer yields
exactly `ceil(N / C)` chunks whose concatenation in order is the original bytes; every
chunk except possibly the last has size exactly `C`, every chunk is non-empty and at
most `C` long, and an empty body yields zero chunks. -/
theorem aiter_content_chunking (data : Bytes) (C : Nat) (hC : 0 < C) :
    (aiter_content data C).length = (data.length + C - 1) / C ∧
    (aiter_content data C).flatten = data ∧
    (∀ c ∈ (aiter_content data C).dropLast, c.length = C) ∧
    (∀ c ∈ aiter_content data C, 0 < c.length ∧ c.length ≤ C) ∧
    (data = [] → aiter_content data C = []) :=
  ⟨aiter_length C hC data, aiter_join C hC data, aiter_dropLast C hC data,
   aiter_mem_length C hC data, fun h => by rw [h, aiter_content_nil]⟩

/-- Witness for `aiter_content_chunking`: a five-byte body with chunk size two yields
three chunks that concatenate back to the body. -/
theorem aiter_content_chunking_witness :
    0 < 2 ∧ (aiter_content [0, 1, 2, 3, 4] 2).flatten = [0, 1, 2, 3, 4] ∧
      (aiter_content [0, 1, 2, 3, 4] 2).length = 3 :=
  ⟨Nat.zero_lt_two,
   (aiter_content_chunking [0, 1, 2, 3, 4] 2 Nat.zero_lt_two).2.1,
   by
     have h := (aiter_content_chunking [0, 1, 2, 3, 4] 2 Nat.zero_lt_two).1
     rw [h]
     decide⟩

/-- C9: the tier-3 adapter turns a missing or falsy (`None`/`0`) status attribute into
status 200, which the cascade then treats as a success; and the adapted header mapping
has keys that are lowercasings of original keys, no duplicate keys, and for every key the
value of the last entry of `dict(resp.headers.items())` whose lowered key matches. -/
theorem urllib_falsy_status_and_lower_headers (net : Net) (url : Str)
    (headers : Headers) (timeout : Option Nat) (proxies : Option ProxyDict)
    (browser : Option Str) :
    (∀ raw : RawResp, raw.status = none ∨ raw.status = some 0 →
        (urllib_get raw).status_code = 200) ∧
    (∀ (e1 e2 : PyError) (raw : RawResp),
        single_get (net.curl url (kwTier1 headers timeout proxies browser)) = .error e1 →
        single_get (net.curl url (kwTier2 headers timeout proxies browser)) = .error e2 →
        net.urllib url headers timeout = .ok raw →
        (raw.status = none ∨ raw.status = some 0) →
        (do_request net url headers timeout proxies browser).result =
          .ok (.fallback (urllib_get raw))) ∧
    (∀ raw : RawResp, ∀ k ∈ (urllib_get raw).headers.map Prod.fst,
        ∃ kv ∈ raw.headers, k = pyLower kv.1) ∧
    (∀ raw : RawResp, ((urllib_get raw).headers.map Prod.fst).Nodup) ∧
    (∀ (raw : RawResp) (k : Str),
        dictGet (urllib_get raw).headers k = lastValueBy pyLower (pyDict raw.headers) k) := by
  have hstat : ∀ raw : RawResp, raw.status = none ∨ raw.status = some 0 →
      (urllib_get raw).status_code = 200 := by
    intro raw h
    rcases h with h | h <;> simp [urllib_get, effStatus, h]
  refine ⟨hstat, ?_, ?_, ?_, ?_⟩
  · intro e1 e2 raw h1 h2 h3 hfal
    rw [do_request_tier3_ok net url headers timeout proxies browser e1 e2 raw h1 h2 h3
      (hstat raw hfal)]
  · intro raw k hk
    have hk2 : k ∈ (lowerHeaders (pyDict raw.headers)).map Prod.fst := hk
    rw [lowerHeaders] at hk2
    rcases keys_fold_setItem pyLower (pyDict raw.headers) [] k hk2 with h | h
    · exact absurd h (by simp)
    · rcases h with ⟨kv, hmem, hkey⟩
      have hk3 : kv.1 ∈ (pyDict raw.headers).map Prod.fst :=
        List.mem_map.mpr ⟨kv, hmem, rfl⟩
      rw [pyDict] at hk3
      rcases keys_fold_setItem (fun s => s) raw.headers [] kv.1 hk3 with h2 | h2
      · exact absurd h2 (by simp)
      · rcases h2 with ⟨kv2, hmem2, hkey2⟩
        exact ⟨kv2, hmem2, by rw [hkey, hkey2]⟩
  · intro raw
    exact nodup_fold_setItem pyLower (pyDict raw.headers) [] (by simp)
  · intro raw k
    exact dictGet_lowerHeaders (pyDict raw.headers) k

/-- Witness for `urllib_falsy_status_and_lower_headers`: a raw response with no status
attribute and case-colliding header keys is adapted to status 200 (a cascade success)
with the lowercased key bound to the later value. -/
theorem urllib_falsy_status_witness :
    (urllib_get rawEx).status_code = 200 ∧
    dictGet (urllib_get rawEx).headers ("a").toList = some ("2").toList ∧
    (do_request netFalsy ("u").toList [] none none none).result =
      .ok (.fallback (urllib_get rawEx)) := by
  have h := urllib_falsy_status_and_lower_headers netFalsy (("u").toList) [] none none none
  refine ⟨h.1 rawEx (Or.inl rfl), ?_, ?_⟩
  · have h5 := h.2.2.2.2 rawEx (("a").toList)
    rw [h5]
    decide
  · exact h.2.1 (.upstream (failMsg 403) ⟨some 403, none⟩)
      (.upstream (failMsg 403) ⟨some 403, none⟩) rawEx (by decide) (by decide) rfl
      (Or.inl rfl)

/-- C3: when `request` ends in a terminal `UpstreamException`, the original exception is
re-raised unchanged, `record_fail` is invoked exactly once iff the terminal status is
401 (with the token, the status and the fixed reason tag) and zero times otherwise, and
the outcome is independent of whether `record_fail` raises (the bare `except` suppresses
it). -/
theorem record_fail_iff_terminal_401 (bh : BuildHeaders) (cfg : Config) (net : Net)
    (token fp m : Str) (d : ErrDetails)
    (h : (inner bh cfg net token (normalizePath fp)).result = .error (.upstream m d)) :
    (request bh cfg net token fp).result = .error (.upstream m d) ∧
    ((request bh cfg net token fp).recordFails.length = 1 ↔ d.status = some 401) ∧
    (d.status = some 401 →
        (request bh cfg net token fp).recordFails = [⟨token, some 401, REASON_TAG⟩]) ∧
    (¬d.status = some 401 → (request bh cfg net token fp).recordFails = []) ∧
    (∀ b : Bool,
        request bh cfg ⟨net.curl, net.urllib, b⟩ token fp = request bh cfg net token fp) := by
  refine ⟨?_, ?_, ?_, ?_, fun b => rfl⟩
  · simp only [request, requestCore, retry_on_status, h]
  · by_cases hst : d.status = some 401 <;>
      simp [request, requestCore, retry_on_status, h, hst]
  · intro hst
    simp [request, requestCore, retry_on_status, h, hst]
  · intro hst
    simp [request, requestCore, retry_on_status, h, hst]

/-- Witness for `record_fail_iff_terminal_401`: with every tier reporting 401, exactly
one `record_fail` call with the token, status 401 and the fixed reason tag is recorded,
and the 401 `UpstreamException` reaches the caller. -/
theorem record_fail_iff_terminal_401_witness :
    (request bh0 cfg0 net401 ("t").toList ("a.png").toList).recordFails =
      [⟨("t").toList, some 401, REASON_TAG⟩] ∧
    (request bh0 cfg0 net401 ("t").toList ("a.png").toList).result =
      .error (.upstream (failMsg 401) ⟨some 401, none⟩) := by
  have h := record_fail_iff_terminal_401 bh0 cfg0 net401 (("t").toList)
    (("a.png").toList) (failMsg 401) ⟨some 401, none⟩ (by decide)
  exact ⟨h.2.2.1 rfl, h.1⟩

/-- C5: an exception that is not an `UpstreamException` escaping the cascade is wrapped
into a new `UpstreamException` whose detail mapping has status 502 and carries the
stringified cause (in the message and the `error` detail), an error line is logged, no
`record_fail` call is made, and the exception never propagates unwrapped. -/
theorem unclassified_wrapped_502 (bh : BuildHeaders) (cfg : Config) (net : Net)
    (token fp m : Str)
    (h : (inner bh cfg net token (normalizePath fp)).result = .error (.generic m)) :
    (request bh cfg net token fp).result =
        .error (.upstream (wrapMsg m) ⟨some 502, some m⟩) ∧
    (request bh cfg net token fp).logs =
        (inner bh cfg net token (normalizePath fp)).logs ++ [⟨.error, wrapMsg m⟩] ∧
    (request bh cfg net token fp).recordFails = [] := by
  refine ⟨?_, ?_, ?_⟩ <;> simp only [request, requestCore, retry_on_status, h]

/-- Witness for `unclassified_wrapped_502`: when the curl tiers raise and the urllib
fallback itself raises, the caller sees a 502 `UpstreamException` carrying the cause. -/
theorem unclassified_wrapped_502_witness :
    (request bh0 cfg0 netExn ("t").toList ("a").toList).result =
      .error (.upstream (wrapMsg ("urllib down").toList)
        ⟨some 502, some ("urllib down").toList⟩) ∧
    (request bh0 cfg0 netExn ("t").toList ("a").toList).recordFails = [] := by
  have h := unclassified_wrapped_502 bh0 cfg0 netExn (("t").toList) (("a").toList)
    (("urllib down").toList) (by decide)
  exact ⟨h.1, h.2.2⟩

/-- C6: the proxy url used by tier 1 resolves with precedence - a non-empty (after
stripping) asset-specific proxy wins over a non-empty base proxy, which wins over no
proxy; when both are absent or whitespace-empty no proxies mapping is built, and the
tier-1 kwargs carry exactly the resolved mapping. -/
theorem proxy_resolution_precedence (cfg : Config) (headers : Headers)
    (timeout : Option Nat) :
    mkProxies cfg =
      (if pyStrip (orEmpty cfg.asset_proxy_url) ≠ [] then
        some ⟨pyStrip (orEmpty cfg.asset_proxy_url), pyStrip (orEmpty cfg.asset_proxy_url)⟩
      else if pyStrip (orEmpty cfg.base_proxy_url) ≠ [] then
        some ⟨pyStrip (orEmpty cfg.base_proxy_url), pyStrip (orEmpty cfg.base_proxy_url)⟩
      else none) ∧
    (cfg.base_proxy_url = none → cfg.asset_proxy_url = none → mkProxies cfg = none) ∧
    (kwTier1 headers timeout (mkProxies cfg) cfg.browser).proxies = mkProxies cfg := by
  refine ⟨?_, ?_, ?_⟩
  · simp only [mkProxies]
    by_cases ha : pyStrip (orEmpty cfg.asset_proxy_url) = [] <;>
      by_cases hb : pyStrip (orEmpty cfg.base_proxy_url) = [] <;> simp [ha, hb]
  · intro h1 h2
    simp [mkProxies, h1, h2, orEmpty, pyStrip]
  · cases hmp : mkProxies cfg <;> simp [kwTier1, mkKwargs, hmp]

/-- Witness for `proxy_resolution_precedence`: with both proxies configured the stripped
asset-specific url wins, and tier 1 carries exactly the resolved mapping. -/
theorem proxy_resolution_witness :
    mkProxies cfgBoth = some ⟨("asset").toList, ("asset").toList⟩ ∧
    (kwTier1 [] none (mkProxies cfgBoth) none).proxies = mkProxies cfgBoth := by
  have h := proxy_resolution_precedence cfgBoth [] none
  refine ⟨?_, h.2.2⟩
  rw [h.1]
  decide

/-- C7: absent or empty configuration degrades gracefully - no proxies mapping when both
proxy urls strip to empty, no `impersonate` kwarg when the browser profile is falsy, and
a passed-through absent timeout on which the transport's own default applies. -/
theorem absent_config_graceful_degradation (cfg : Config) (headers : Headers)
    (ui up : Bool) (libDefault : Nat) :
    (pyStrip (orEmpty cfg.base_proxy_url) = [] →
      pyStrip (orEmpty cfg.asset_proxy_url) = [] →
        mkProxies cfg = none ∧
        (mkKwargs headers cfg.download_timeout (mkProxies cfg) cfg.browser ui up).proxies
          = none) ∧
    (truthyStr cfg.browser = false →
        (mkKwargs headers cfg.download_timeout (mkProxies cfg) cfg.browser ui up).impersonate
          = none) ∧
    (cfg.download_timeout = none →
        (mkKwargs headers cfg.download_timeout (mkProxies cfg) cfg.browser ui up).timeout
          = none ∧
        effectiveTimeout cfg.download_timeout libDefault = libDefault) := by
  refine ⟨?_, ?_, ?_⟩
  · intro h1 h2
    have hmp : mkProxies cfg = none := by simp [mkProxies, h1, h2]
    exact ⟨hmp, by simp [mkKwargs, hmp]⟩
  · intro hb
    simp [mkKwargs, hb]
  · intro ht
    exact ⟨by simp [mkKwargs, ht], by simp [effectiveTimeout, ht]⟩

/-- Witness for `absent_config_graceful_degradation` at the all-absent configuration. -/
theorem absent_config_witness :
    mkProxies cfg0 = none ∧
    (mkKwargs [] cfg0.download_timeout (mkProxies cfg0) cfg0.browser true true).proxies
      = none ∧
    (mkKwargs [] cfg0.download_timeout (mkProxies cfg0) cfg0.browser true true).impersonate
      = none ∧
    effectiveTimeout cfg0.download_timeout 30 = 30 := by
  have h := absent_config_graceful_degradation cfg0 [] true true 30
  exact ⟨(h.1 (by decide) (by decide)).1, (h.1 (by decide) (by decide)).2,
    h.2.1 (by decide), (h.2.2 rfl).2⟩

/-- C8: a non-empty path without a leading separator is treated identically to the same
path with one prefixed - the normalization adds exactly one leading `/` when absent and
leaves a path that already begins with `/` unchanged, so the whole request behaves
identically on both inputs. -/
theorem path_normalization_prefixes_separator (bh : BuildHeaders) (cfg : Config)
    (net : Net) (token p : Str) (hne : p ≠ []) (hns : p.head? ≠ some '/') :
    request bh cfg net token p = request bh cfg net token ('/' :: p) ∧
    normalizePath p = '/' :: p ∧
    (∀ q : Str, q.head? = some '/' → normalizePath q = q) := by
  have hp : normalizePath p = '/' :: p := by
    simp only [normalizePath]
    rw [if_neg hns]
  have hq : ∀ q : Str, q.head? = some '/' → normalizePath q = q := by
    intro q h
    simp only [normalizePath]
    rw [if_pos h]
  refine ⟨?_, hp, hq⟩
  simp only [request]
  rw [hp, hq ('/' :: p) rfl]

/-- Witness for `path_normalization_prefixes_separator` on the path `a.png`. -/
theorem path_normalization_witness :
    request bh0 cfg0 netOk ("t").toList ("a.png").toList =
      request bh0 cfg0 netOk ("t").toList ('/' :: ("a.png").toList) ∧
    normalizePath ("a.png").toList = '/' :: ("a.png").toList := by
  have h := path_normalization_prefixes_separator bh0 cfg0 netOk (("t").toList)
    (("a.png").toList) (by decide) (by decide)
  exact ⟨h.1, h.2.1⟩

/-- C10: the content-type hint is case-insensitive in the extension - the hint depends
only on the lowercased suffix of the url path, any suffix whose lowercasing equals a key
of `_CONTENT_TYPES` produces that key's value, and a suffix matching no key (in any
case) produces no hint. -/
theorem content_type_hint_case_insensitive :
    (∀ p q : Str,
        pyLower (pathSuffix (urlparsePath p)) = pyLower (pathSuffix (urlparsePath q)) →
        contentTypeHint p = contentTypeHint q) ∧
    (∀ p k v : Str, dictGet CONTENT_TYPES k = some v →
        pyLower (pathSuffix (urlparsePath p)) = k → contentTypeHint p = some v) ∧
    (∀ p : Str, (∀ kv ∈ CONTENT_TYPES, pyLower (pathSuffix (urlparsePath p)) ≠ kv.1) →
        contentTypeHint p = none) := by
  refine ⟨?_, ?_, ?_⟩
  · intro p q h
    simp only [contentTypeHint, h]
  · intro p k v h1 h2
    simp only [contentTypeHint, h2, h1]
  · intro p h
    exact dictGet_none_of_no_key CONTENT_TYPES _ h

/-- Witness for `content_type_hint_case_insensitive`: an upper-case `.PNG` extension
produces the `image/png` hint and an unknown `.xyz` extension produces none. -/
theorem content_type_hint_witness :
    contentTypeHint ("/img/pic.PNG").toList = some ("image/png").toList ∧
    contentTypeHint ("/img/pic.xyz").toList = none := by
  refine ⟨content_type_hint_case_insensitive.2.1 (("/img/pic.PNG").toList)
    ((".png").toList) (("image/png").toList) (by decide) (by decide),
    content_type_hint_case_insensitive.2.2 (("/img/pic.xyz").toList) (by decide)⟩

end AssetsDownload
